import Mathlib

/-!
Shallow embedding of the KYC document-verification pipeline
(quality gate, perceptual-hash dedup, extraction client with retry and
fallback, logic validator with MRZ cross-check, score aggregator, and
the pipeline orchestrator), together with theorems settling the spec
claims.  Floats are modelled as rationals; the external image and HTTP
primitives are abstracted as environment functions.
-/

namespace PoVKYC

/-! ## Dates (model of Python `datetime.date` as used by the validator) -/

/-- Calendar date; Python `date` comparison is lexicographic on
(year, month, day). -/
structure SimpleDate where
  year : Nat
  month : Nat
  day : Nat
deriving DecidableEq, Repr

/-- Date `a <= b` as Python compares `datetime.date` values. -/
def dateLe (a b : SimpleDate) : Bool :=
  (a.year < b.year) ||
  (a.year == b.year && (a.month < b.month ||
    (a.month == b.month && a.day ≤ b.day)))

/-- Date `a < b` as Python compares `datetime.date` values. -/
def dateLt (a b : SimpleDate) : Bool :=
  (a.year < b.year) ||
  (a.year == b.year && (a.month < b.month ||
    (a.month == b.month && a.day < b.day)))

/-- Two-digit zero-padded rendering of a number below 100. -/
def pad2 (n : Nat) : String :=
  if n < 10 then "0" ++ toString n else toString n

/-- Python `d.strftime("%y%m%d")`: two-digit year, month, day. -/
def strftime_yymmdd (d : SimpleDate) : String :=
  pad2 (d.year % 100) ++ pad2 d.month ++ pad2 d.day

/-! ## Python string primitives, modelled structurally over char lists so
that concrete inputs evaluate inside the kernel -/

/-- Split a char list at every occurrence of a separator character
(Python `str.split(sep)` semantics: n separators yield n+1 pieces). -/
def splitOnChar (sep : Char) : List Char → List (List Char)
  | [] => [[]]
  | c :: cs =>
    match splitOnChar sep cs with
    | [] => [[c]]
    | h :: t => if c = sep then [] :: h :: t else (c :: h) :: t

/-- Whitespace characters removed by Python `str.strip()`. -/
def isPyWhitespace (c : Char) : Bool :=
  c == ' ' || c == '\t' || c == '\n' || c == '\r'

/-- Python `s.strip()`: drop leading and trailing whitespace. -/
def pyStrip (s : String) : String :=
  String.mk (((s.data.dropWhile isPyWhitespace).reverse.dropWhile
    isPyWhitespace).reverse)

/-- Python `s.split("\n")`. -/
def pySplitNl (s : String) : List String :=
  (splitOnChar '\n' s.data).map String.mk

/-- Python `s.replace(c, "")`: remove every occurrence of a character. -/
def removeChar (c : Char) (s : String) : String :=
  String.mk (s.data.filter (fun x => x ≠ c))

/-- Python code-point slicing `s[a:b]` (for a <= b). -/
def pySlice (s : String) (a b : Nat) : String :=
  String.mk ((s.data.drop a).take (b - a))

/-- Python `s.startswith(pre)`. -/
def pyStartsWith (s pre : String) : Bool :=
  pre.data.isPrefixOf s.data

/-! ## Schemas (src/schemas.py) -/

inductive DocumentType where
  | passport
  | drivers_license
  | unknown
deriving DecidableEq, Repr

/-- Shared document record (`BaseDocument` plus the type-specific extras of
`PassportInfo` / `DriversLicenseInfo`; the `evidence` mapping is omitted as
no validation logic reads it). -/
structure BaseDocument where
  full_name : Option String := none
  birth_date : Option SimpleDate := none
  document_number : Option String := none
  issue_date : Option SimpleDate := none
  expiry_date : Option SimpleDate := none
  nationality : Option String := none
  mrz_raw : Option String := none
  passport_type : Option String := none
  license_class : Option String := none
  address : Option String := none
deriving DecidableEq, Repr

/-- Structured payload returned by the extraction client. -/
structure ExtractionPayload where
  document_type : DocumentType := DocumentType.unknown
  ai_confidence : ℚ := 1/2
  missing_fields : List String := []
  passport : Option BaseDocument := none
  drivers_license : Option BaseDocument := none
  raw_text : Option String := none
deriving DecidableEq, Repr

/-! ## Validator (src/validator.py) -/

/-- Character class `[A-Z0-9]`. -/
def isUpperAlnum (c : Char) : Bool :=
  (decide ('A' ≤ c) && decide (c ≤ 'Z')) ||
  (decide ('0' ≤ c) && decide (c ≤ '9'))

/-- Full match of `^[A-Z0-9]{6,9}$` (PASSPORT_NUMBER_PATTERN). -/
def passport_number_match (s : String) : Bool :=
  decide (6 ≤ s.length) && decide (s.length ≤ 9) && s.data.all isUpperAlnum

/-- Full match of `^[A-Z0-9\-]{5,20}$` (DRIVER_LICENSE_PATTERN). -/
def driver_license_match (s : String) : Bool :=
  decide (5 ≤ s.length) && decide (s.length ≤ 20) &&
    s.data.all (fun c => isUpperAlnum c || c == '-')

/-- Message for an MRZ with fewer than two lines. -/
def mrzIncompleteMsg : String := "MRZ incomplete (expected 2+ lines)"

/-- Message for a document-number mismatch against the MRZ. -/
def docNumMismatchMsg (visual mrz : String) : String :=
  "MRZ doc# mismatch: visual=" ++ visual ++ ", MRZ=" ++ mrz

/-- Message for a birth-date mismatch against the MRZ. -/
def birthMismatchMsg (visual mrz : String) : String :=
  "MRZ birth mismatch: visual=" ++ visual ++ ", MRZ=" ++ mrz

/-- Message for an expiry-date mismatch against the MRZ. -/
def expiryMismatchMsg (visual mrz : String) : String :=
  "MRZ expiry mismatch: visual=" ++ visual ++ ", MRZ=" ++ mrz

/-- Second MRZ line with spaces removed: `lines[1].replace(" ", "")`. -/
def mrzLine2 (mrz_raw : String) : String :=
  removeChar ' ' ((pySplitNl (pyStrip mrz_raw)).getD 1 "")

/-- MRZ document number field: `line2[0:9].replace("<", "").strip()`. -/
def mrzDocNum (line2 : String) : String :=
  pyStrip (removeChar '<' (pySlice line2 0 9))

/-- MRZ birth-date field: `line2[13:19]`. -/
def mrzBirth (line2 : String) : String :=
  pySlice line2 13 19

/-- MRZ expiry-date field: `line2[21:27]`. -/
def mrzExpiry (line2 : String) : String :=
  pySlice line2 21 27

/-- Document-number sub-check of the MRZ cross-check: when both the
visual number and the MRZ field are non-empty, the visual number must
start with the first six characters of the MRZ field
(`doc.document_number.startswith(mrz_doc_num[:6])`). -/
def docNumIssue (doc : BaseDocument) (line2 : String) : List String :=
  match doc.document_number with
  | some dn =>
    if !dn.data.isEmpty && !(mrzDocNum line2).data.isEmpty &&
        !(pyStartsWith dn (pySlice (mrzDocNum line2) 0 6)) then
      [docNumMismatchMsg dn (mrzDocNum line2)]
    else []
  | none => []

/-- Birth-date sub-check of the MRZ cross-check: the visual birth date
rendered `%y%m%d` must equal the MRZ birth field exactly. -/
def birthIssue (doc : BaseDocument) (line2 : String) : List String :=
  match doc.birth_date with
  | some b =>
    if mrzBirth line2 ≠ strftime_yymmdd b then
      [birthMismatchMsg (strftime_yymmdd b) (mrzBirth line2)]
    else []
  | none => []

/-- Expiry-date sub-check of the MRZ cross-check. -/
def expiryIssue (doc : BaseDocument) (line2 : String) : List String :=
  match doc.expiry_date with
  | some e =>
    if mrzExpiry line2 ≠ strftime_yymmdd e then
      [expiryMismatchMsg (strftime_yymmdd e) (mrzExpiry line2)]
    else []
  | none => []

/-- Embedding of `DocumentValidator._validate_mrz_cross_check`: fewer
than two lines reports the incomplete message; a second line of at least
44 characters (spaces removed) runs the three sub-checks in order; a
shorter second line produces no issue at all. -/
def validate_mrz_cross_check (mrz_raw : String) (doc : BaseDocument) :
    List String :=
  if (pySplitNl (pyStrip mrz_raw)).length < 2 then [mrzIncompleteMsg]
  else
    let line2 := mrzLine2 mrz_raw
    if 44 ≤ line2.length then
      docNumIssue doc line2 ++ birthIssue doc line2 ++ expiryIssue doc line2
    else []

/-- Outcome of one penalty rule: appended issues, appended flags, penalty. -/
structure CheckOut where
  issues : List String
  flagged : List String
  penalty : ℚ
deriving DecidableEq, Repr

/-- Date-ordering rule: expiry and issue present and expiry <= issue. -/
def dateCheck (doc : BaseDocument) : CheckOut :=
  match doc.expiry_date, doc.issue_date with
  | some e, some i =>
    if dateLe e i then
      ⟨["Expiry must be later than issue date."], ["expiry_date"], 1/5⟩
    else ⟨[], [], 0⟩
  | _, _ => ⟨[], [], 0⟩

/-- Birth-sanity rule: birth and expiry present and birth > expiry. -/
def birthCheck (doc : BaseDocument) : CheckOut :=
  match doc.birth_date, doc.expiry_date with
  | some b, some e =>
    if dateLt e b then
      ⟨["Birth date after expiry."], ["birth_date"], 1/5⟩
    else ⟨[], [], 0⟩
  | _, _ => ⟨[], [], 0⟩

/-- Document-number shape rule (pattern chosen by document type). -/
def docNumCheck (dt : DocumentType) (doc : BaseDocument) : CheckOut :=
  match doc.document_number with
  | some n =>
    if n.data.isEmpty then ⟨[], [], 0⟩
    else
      match dt with
      | DocumentType.passport =>
        if passport_number_match n then ⟨[], [], 0⟩
        else ⟨["Passport number pattern mismatch."], ["document_number"], 1/5⟩
      | DocumentType.drivers_license =>
        if driver_license_match n then ⟨[], [], 0⟩
        else
          ⟨["Driver license number pattern mismatch."], ["document_number"],
            1/5⟩
      | DocumentType.unknown => ⟨[], [], 0⟩
  | none => ⟨[], [], 0⟩

/-- MRZ cross-check rule (passports with a non-empty `mrz_raw` only);
whenever the cross-check reports any issue the single 0.3 penalty applies
and `mrz_raw` is flagged once. -/
def mrzCheck (dt : DocumentType) (doc : BaseDocument) : CheckOut :=
  if dt = DocumentType.passport then
    match doc.mrz_raw with
    | some m =>
      if m.data.isEmpty then ⟨[], [], 0⟩
      else
        let mis := validate_mrz_cross_check m doc
        if mis.isEmpty then ⟨[], [], 0⟩ else ⟨mis, ["mrz_raw"], 3/10⟩
    | none => ⟨[], [], 0⟩
  else ⟨[], [], 0⟩

/-- Embedding of `DocumentValidator._select_doc`: the sub-record matching
the document type; `passport or drivers_license` when the type is unknown. -/
def select_doc (e : ExtractionPayload) : Option BaseDocument :=
  match e.document_type with
  | DocumentType.passport => e.passport
  | DocumentType.drivers_license => e.drivers_license
  | DocumentType.unknown =>
    match e.passport with
    | some p => some p
    | none => e.drivers_license

/-- Sum of the four rule penalties, before the 1.0 cap. -/
def rawPenalty (dt : DocumentType) (doc : BaseDocument) : ℚ :=
  (dateCheck doc).penalty + (birthCheck doc).penalty +
    (docNumCheck dt doc).penalty + (mrzCheck dt doc).penalty

/-- Result triple of `_logic_checks`. -/
structure LogicOut where
  score : ℚ
  issues : List String
  flagged : List String
deriving DecidableEq, Repr

/-- Embedding of `DocumentValidator._logic_checks`: penalties of the four
rules are summed, capped at 1.0, and `logic_score = max 0 (1 - capped)`;
issues and flags are appended in rule order. -/
def logic_checks (e : ExtractionPayload) : LogicOut :=
  match select_doc e with
  | none => ⟨0, ["Missing document payload"], ["document_type"]⟩
  | some doc =>
    let pen := min (rawPenalty e.document_type doc) 1
    ⟨max 0 (1 - pen),
      (dateCheck doc).issues ++ (birthCheck doc).issues ++
        (docNumCheck e.document_type doc).issues ++
        (mrzCheck e.document_type doc).issues,
      (dateCheck doc).flagged ++ (birthCheck doc).flagged ++
        (docNumCheck e.document_type doc).flagged ++
        (mrzCheck e.document_type doc).flagged⟩

/-- Clamp into [0, 1]: `max(0.0, min(x, 1.0))`. -/
def clamp01 (x : ℚ) : ℚ := max 0 (min x 1)

/-- Embedding of `DocumentValidator._status_from_score` (thresholds 0.9
and 0.7). -/
def status_from_score (ucs : ℚ) : String :=
  if 9/10 ≤ ucs then "SUCCESS"
  else if 7/10 ≤ ucs then "MANUAL_REVIEW"
  else "RETRY_UPLOAD"

/-- Result of `DocumentValidator.assess`. -/
structure ValidationOutcome where
  status : String
  ucs : ℚ
  logic_score : ℚ
  issues : List String
  flagged_fields : List String
deriving DecidableEq, Repr

/-- Embedding of `DocumentValidator.assess`. -/
def assess (e : ExtractionPayload) (image_quality : ℚ) : ValidationOutcome :=
  let lc := logic_checks e
  let ai_prob := max 0 (min e.ai_confidence 1)
  let image_score := max 0 (min (image_quality / 100) 1)
  let ucs := ai_prob * (2/5) + image_score * (1/5) + lc.score * (2/5)
  ⟨status_from_score ucs, ucs, lc.score, lc.issues, lc.flagged⟩

/-! ## Image processor (src/processor.py) -/

/-- Decoded image dimensions in pixels. -/
structure ImgDims where
  width : Nat
  height : Nat
deriving DecidableEq, Repr

/-- Result of `smart_resize`: either the input bytes unchanged or a
re-encoded image of the stated dimensions. -/
inductive ResizeOut where
  | original
  | resized (width height : Nat)
deriving DecidableEq, Repr

/-- Embedding of `ImageProcessor.smart_resize` on the decoded dimensions:
the byte-identical short-circuit when the longest side is within the cap,
otherwise `int(side * max_side / longest)` for each side (Python `int`
truncation of the nonnegative product is natural-number division). -/
def smart_resize (max_side : Nat) (img : ImgDims) : ResizeOut :=
  let longest := max img.width img.height
  if longest ≤ max_side then ResizeOut.original
  else
    ResizeOut.resized (img.width * max_side / longest)
      (img.height * max_side / longest)

/-- Default blur threshold of the quality gate. -/
def quality_threshold : ℚ := 80

/-- Message raised when the bytes cannot be decoded by the quality gate. -/
def invalidImageMsg : String := "Invalid image input; cannot decode."

/-- Fixed-point rendering with two decimals, modelling Python `"%.2f"`
rounding of a nonnegative score. -/
def fmt2 (q : ℚ) : String :=
  let r : ℤ := round (q * 100)
  toString (r / 100) ++ "." ++ pad2 (r % 100).toNat

/-- Message raised when the Laplacian variance is below the threshold
(`f"Image too blurry (score {variance:.2f} < {self.quality_threshold})."`). -/
def blurryMsg (v : ℚ) : String :=
  "Image too blurry (score " ++ fmt2 v ++ " < 80.0)."

/-! ## Extraction client (src/extractor.py) -/

/-- Outcome of a single HTTP POST to the model endpoint, as observed by
`_post_with_retry`: a successful response (identified abstractly), an
HTTP error status, or a network/timeout error. -/
inductive HttpOutcome where
  | success (responseId : Nat)
  | httpStatus (code : Nat)
  | netError (msg : String)
deriving DecidableEq, Repr

/-- The retryable status set `{429, 500, 502, 503, 504}`. -/
def retryableStatuses : List Nat := [429, 500, 502, 503, 504]

/-- Result of `_post_with_retry`: a response or a `ModelCallError`. -/
inductive CallResult where
  | ok (responseId : Nat)
  | modelCallError (msg : String)
deriving DecidableEq, Repr

/-- Message of the `ModelCallError` raised on a non-retryable HTTP status
(models `str(exc)` of the `HTTPStatusError`). -/
def httpStatusMsg (code : Nat) : String :=
  "HTTP status error " ++ toString code

/-- Embedding of the `for attempt in range(max_retries)` loop of
`FireworksExtractor._post_with_retry`, started at a given attempt index.
The transport is a function from the attempt index to its outcome; the
second component records the `asyncio.sleep` delays in order.  A
retryable status always sleeps `backoff_base * 2 ** attempt` and loops; a
non-retryable status raises at once; a network error raises without
sleeping on the last attempt and otherwise sleeps and loops; falling off
the loop raises the exhaustion `ModelCallError`. -/
def post_with_retry_from (responses : Nat → HttpOutcome) (max_retries : Nat)
    (backoff_base : ℚ) (attempt : Nat) : CallResult × List ℚ :=
  if _h : attempt < max_retries then
    match responses attempt with
    | HttpOutcome.success r => (CallResult.ok r, [])
    | HttpOutcome.httpStatus c =>
      if c ∈ retryableStatuses then
        let rest := post_with_retry_from responses max_retries backoff_base
          (attempt + 1)
        (rest.1, backoff_base * 2 ^ attempt :: rest.2)
      else (CallResult.modelCallError (httpStatusMsg c), [])
    | HttpOutcome.netError m =>
      if attempt = max_retries - 1 then (CallResult.modelCallError m, [])
      else
        let rest := post_with_retry_from responses max_retries backoff_base
          (attempt + 1)
        (rest.1, backoff_base * 2 ^ attempt :: rest.2)
  else (CallResult.modelCallError "Model call failed after retries.", [])
termination_by max_retries - attempt

/-- Embedding of `FireworksExtractor._post_with_retry` (loop from 0). -/
def post_with_retry (responses : Nat → HttpOutcome) (max_retries : Nat)
    (backoff_base : ℚ) : CallResult × List ℚ :=
  post_with_retry_from responses max_retries backoff_base 0

/-- Outcome of one model attempt (`_post_with_retry` followed by
`_parse_payload`): a parsed payload, a `SchemaValidationError`, or a
`ModelCallError` out of the transport loop. -/
inductive AttemptOutcome where
  | parsed (p : ExtractionPayload)
  | schemaFail (msg : String)
  | callFail (msg : String)
deriving DecidableEq, Repr

/-- Errors escaping `FireworksExtractor.extract`. -/
inductive ExtractErr where
  | modelCall (msg : String)
  | schemaValidation (msg : String)
deriving DecidableEq, Repr

/-- Environment of one `extract` call: the outcome of the n-th attempt
against the primary model (0 = first call, 1 = the single same-model
retry) and the outcome of the fallback-model attempt. -/
structure ExtractEnv where
  primary : Nat → AttemptOutcome
  fallback : AttemptOutcome

/-- Outcome of the fallback attempt: a parse failure there escapes as a
`SchemaValidationError`, a call failure as a `ModelCallError`. -/
def runFallbackAttempt (o : AttemptOutcome) :
    Except ExtractErr ExtractionPayload :=
  match o with
  | AttemptOutcome.parsed p => Except.ok p
  | AttemptOutcome.schemaFail m => Except.error (ExtractErr.schemaValidation m)
  | AttemptOutcome.callFail m => Except.error (ExtractErr.modelCall m)

/-- Embedding of the attempt/retry/fallback state machine of
`FireworksExtractor.extract`.  The boolean records whether the fallback
model was invoked.  A `SchemaValidationError` on the first attempt is
caught and the same body is retried once; a `ModelCallError` raised by
that retry occurs inside the `except SchemaValidationError` handler, so
the outer `except ModelCallError` clause does not apply and it
propagates without reaching the fallback.  The fallback is reached only
after a call failure on the first attempt or parse failures on both
primary attempts. -/
def extract (env : ExtractEnv) : Except ExtractErr ExtractionPayload × Bool :=
  match env.primary 0 with
  | AttemptOutcome.parsed p => (Except.ok p, false)
  | AttemptOutcome.callFail _ => (runFallbackAttempt env.fallback, true)
  | AttemptOutcome.schemaFail _ =>
    match env.primary 1 with
    | AttemptOutcome.parsed p => (Except.ok p, false)
    | AttemptOutcome.schemaFail _ => (runFallbackAttempt env.fallback, true)
    | AttemptOutcome.callFail m =>
      (Except.error (ExtractErr.modelCall m), false)

/-! ## Pipeline orchestrator (src/main.py) -/

/-- Raw image bytes. -/
abbrev Bytes := List Nat

/-- Exceptions observable at the orchestrator boundary. -/
inductive PipelineExc where
  | technicalReject (msg : String)
  | modelCall (msg : String)
  | schemaValidation (msg : String)
  | other (msg : String)
deriving DecidableEq, Repr

/-- Environment abstracting the image and network primitives used by one
pipeline: `calculate_phash` (which can itself fail with a non-reject
decoding error from PIL), `cv2.imdecode` (None on undecodable bytes), the
Laplacian-variance measure on a decoded frame, `smart_resize` on bytes,
and the extraction client applied to the resized bytes. -/
structure PipelineEnv where
  phashFn : Bytes → Except String String
  decode : Bytes → Option Nat
  lapVar : Nat → ℚ
  resize : Bytes → Bytes
  extractFn : Bytes → Except ExtractErr ExtractionPayload

/-- Embedding of `ImageProcessor.quality_check`: reject undecodable bytes,
then reject a Laplacian variance below the threshold, else report it. -/
def quality_check (env : PipelineEnv) (b : Bytes) : Except PipelineExc ℚ :=
  match env.decode b with
  | none => Except.error (PipelineExc.technicalReject invalidImageMsg)
  | some frame =>
    let v := env.lapVar frame
    if v < quality_threshold then
      Except.error (PipelineExc.technicalReject (blurryMsg v))
    else Except.ok v

/-- The externally visible result record. -/
structure PipelineResult where
  status : String
  score : ℚ
  logic_score : ℚ
  phash : String
  issues : List String
  flagged_fields : List String
  payload : Option ExtractionPayload
deriving DecidableEq, Repr

/-- Embedding of `KYCPipeline.run`: compute the fingerprint, fail fast on
a seen fingerprint, add it to the set, run the quality gate, resize,
extract, validate and aggregate.  The second component is the pipeline
instance's `seen_hashes` set after the call (the set keeps the added
fingerprint even when a later step raises). -/
def pipelineRun (env : PipelineEnv) (b : Bytes) (seen : List String) :
    Except PipelineExc PipelineResult × List String :=
  match env.phashFn b with
  | Except.error m => (Except.error (PipelineExc.other m), seen)
  | Except.ok ph =>
    if ph ∈ seen then
      (Except.error (PipelineExc.technicalReject "Duplicate upload detected."),
        seen)
    else
      let seen1 := ph :: seen
      match quality_check env b with
      | Except.error e => (Except.error e, seen1)
      | Except.ok qscore =>
        let resized := env.resize b
        match env.extractFn resized with
        | Except.error (ExtractErr.modelCall m) =>
          (Except.error (PipelineExc.modelCall m), seen1)
        | Except.error (ExtractErr.schemaValidation m) =>
          (Except.error (PipelineExc.schemaValidation m), seen1)
        | Except.ok payload =>
          let outcome := assess payload qscore
          (Except.ok
            ⟨outcome.status, outcome.ucs, outcome.logic_score, ph,
              outcome.issues, outcome.flagged_fields, some payload⟩,
            seen1)

/-- Embedding of `run_single_file`: a fresh `KYCPipeline` is constructed
for the call, so `pipelineRun` starts from the empty fingerprint set;
`TechnicalRejectError` maps to RETRY_UPLOAD with the message as the sole
issue, `ModelCallError` / `SchemaValidationError` map to SYSTEM_ERROR
with a descriptive issue, and any other exception propagates uncaught
(`Except.error`). -/
def run_single_file (env : PipelineEnv) (b : Bytes) :
    Except String PipelineResult :=
  match (pipelineRun env b []).1 with
  | Except.ok r => Except.ok r
  | Except.error (PipelineExc.technicalReject m) =>
    Except.ok ⟨"RETRY_UPLOAD", 0, 0, "", [m], [], none⟩
  | Except.error (PipelineExc.modelCall m) =>
    Except.ok ⟨"SYSTEM_ERROR", 0, 0, "", ["API/parsing failure: " ++ m], [],
      none⟩
  | Except.error (PipelineExc.schemaValidation m) =>
    Except.ok ⟨"SYSTEM_ERROR", 0, 0, "", ["API/parsing failure: " ++ m], [],
      none⟩
  | Except.error (PipelineExc.other m) => Except.error m

/-- Two successive submissions of the same bytes through the
single-document entry point in one process run: each call constructs its
own fresh `KYCPipeline`, exactly as `run_single_file` does. -/
def run_single_file_twice (env : PipelineEnv) (b : Bytes) :
    Except String PipelineResult × Except String PipelineResult :=
  (run_single_file env b, run_single_file env b)

/-! ## Concrete inputs used by witnesses and counterexamples -/

/-- A document record with every field absent. -/
def docEmpty : BaseDocument := {}

/-- A fully confident payload with an empty passport record. -/
def payloadGood : ExtractionPayload :=
  { document_type := DocumentType.unknown, ai_confidence := 1,
    passport := some docEmpty }

/-- Some concrete image bytes. -/
def bytesA : Bytes := [1, 2, 3]

/-- A pipeline environment in which every step succeeds. -/
def envGood : PipelineEnv :=
  { phashFn := fun _ => Except.ok "abc123", decode := fun _ => some 0,
    lapVar := fun _ => 100, resize := fun b => b,
    extractFn := fun _ => Except.ok payloadGood }

/-- A pipeline environment whose fingerprint step succeeds but whose
quality gate cannot decode the bytes (as for a GIF, which PIL opens but
`cv2.imdecode` rejects). -/
def envReject : PipelineEnv :=
  { phashFn := fun _ => Except.ok "gif0", decode := fun _ => none,
    lapVar := fun _ => 0, resize := fun b => b,
    extractFn := fun _ => Except.ok payloadGood }

/-- A passport record whose MRZ has a second line shorter than 44
characters. -/
def docC2 : BaseDocument := { mrz_raw := some "LINE1\nSHORT" }

/-- Payload carrying `docC2`. -/
def eC2 : ExtractionPayload :=
  { document_type := DocumentType.passport, passport := some docC2 }

/-- A passport record whose MRZ has a single line only. -/
def docC2w : BaseDocument := { mrz_raw := some "ONLYONELINE" }

/-- Payload carrying `docC2w`. -/
def eC2w : ExtractionPayload :=
  { document_type := DocumentType.passport, passport := some docC2w }

/-- A 44-character TD3 second line whose document-number field contains a
filler character in a non-trailing position. -/
def line2C5 : String := "A<12345670USA9001010M2501010<<<<<<<<<<<<<<<<"

/-- Two-line MRZ built from `line2C5`. -/
def mrzC5 : String := "P<USADOE<<JOHN" ++ "\n" ++ line2C5

/-- A passport record for the C5 counterexample. -/
def docC5 : BaseDocument :=
  { document_number := some "A12345", mrz_raw := some mrzC5 }

/-- Payload carrying `docC5`. -/
def eC5 : ExtractionPayload :=
  { document_type := DocumentType.passport, passport := some docC5 }

/-- A 44-character TD3 second line with birth field `"900101"`. -/
def line2C5w : String := "A123456780USA9001010M2501010<<<<<<<<<<<<<<<<"

/-- Two-line MRZ built from `line2C5w`. -/
def mrzC5w : String := "P<USADOE<<JOHN" ++ "\n" ++ line2C5w

/-- A passport record whose visual birth date 1990-05-17 disagrees with
the MRZ birth field `"900101"`. -/
def docC5w : BaseDocument :=
  { document_number := some "A12345678",
    birth_date := some ⟨1990, 5, 17⟩, mrz_raw := some mrzC5w }

/-- Payload carrying `docC5w`. -/
def eC5w : ExtractionPayload :=
  { document_type := DocumentType.passport, passport := some docC5w }

/-- Claim-side reading of the MRZ document number: characters 0-8 with
only TRAILING filler characters stripped.  This formalises the claim's
words, to be contrasted with the code's removal of every filler
character. -/
def mrzDocNumClaim (line2 : String) : String :=
  String.mk (((pySlice line2 0 9).data.reverse.dropWhile
    (fun c => c = '<')).reverse)

/-- Extraction environment in which the first primary attempt fails to
parse and the same-model retry fails with a non-retryable HTTP error. -/
def envC9 : ExtractEnv :=
  { primary := fun n =>
      if n = 0 then AttemptOutcome.schemaFail "invalid json"
      else AttemptOutcome.callFail "HTTP status error 400",
    fallback := AttemptOutcome.parsed {} }

/-! ## Helper lemmas -/

/-- Two strings differing at character index 4 stay different after
appending arbitrary suffixes. -/
lemma append_ne_of_get4 (p1 p2 s t : String)
    (h1 : 4 < p1.data.length) (h2 : 4 < p2.data.length)
    (hne : p1.data[4]? ≠ p2.data[4]?) : p1 ++ s ≠ p2 ++ t := by
  intro h
  have hd : p1.data ++ s.data = p2.data ++ t.data := by
    have := congrArg String.data h
    simpa [String.data_append] using this
  apply hne
  calc p1.data[4]? = (p1.data ++ s.data)[4]?
        := (List.getElem?_append_left h1).symm
    _ = (p2.data ++ t.data)[4]? := by rw [hd]
    _ = p2.data[4]? := List.getElem?_append_left h2

/-- The three MRZ mismatch message shapes stay different for all field
contents. -/
lemma mismatch_msg_ne (p1 p2 : String) (h1 : 4 < p1.data.length)
    (h2 : 4 < p2.data.length) (hne : p1.data[4]? ≠ p2.data[4]?)
    (a1 a2 b1 b2 : String) :
    p1 ++ a1 ++ ", MRZ=" ++ a2 ≠ p2 ++ b1 ++ ", MRZ=" ++ b2 := by
  have := append_ne_of_get4 p1 p2 (a1 ++ (", MRZ=" ++ a2))
    (b1 ++ (", MRZ=" ++ b2)) h1 h2 hne
  simpa [String.append_assoc] using this

/-- The blurry-image message never equals the duplicate-upload message. -/
lemma blurryMsg_ne_dup (v : ℚ) :
    blurryMsg v ≠ "Duplicate upload detected." := by
  have := append_ne_of_get4 "Image too blurry (score "
    "Duplicate upload detected." (fmt2 v ++ " < 80.0).") ""
    (by decide) (by decide) (by decide)
  unfold blurryMsg
  simpa [String.append_assoc, String.append_empty] using this

/-- Status classification of `_status_from_score` is exclusive and never
produces SYSTEM_ERROR. -/
lemma status_cases (u : ℚ) :
    (status_from_score u = "SUCCESS" ↔ 9/10 ≤ u)
    ∧ (status_from_score u = "MANUAL_REVIEW" ↔ 7/10 ≤ u ∧ u < 9/10)
    ∧ (status_from_score u = "RETRY_UPLOAD" ↔ u < 7/10)
    ∧ status_from_score u ≠ "SYSTEM_ERROR" := by
  unfold status_from_score
  split_ifs with h9 h7
  · exact ⟨⟨fun _ => h9, fun _ => rfl⟩,
      ⟨fun h => absurd h (by decide), fun h => absurd h9 (not_le.mpr h.2)⟩,
      ⟨fun h => absurd h (by decide), fun h => absurd h9 (not_le.mpr
        (lt_of_lt_of_le h (by norm_num)))⟩,
      by decide⟩
  · exact ⟨⟨fun h => absurd h (by decide), fun h => absurd h h9⟩,
      ⟨fun _ => ⟨h7, lt_of_not_le h9⟩, fun _ => rfl⟩,
      ⟨fun h => absurd h (by decide), fun h => absurd h7 (not_le.mpr h)⟩,
      by decide⟩
  · exact ⟨⟨fun h => absurd h (by decide), fun h => absurd h h9⟩,
      ⟨fun h => absurd h (by decide), fun h => absurd h.1 h7⟩,
      ⟨fun _ => lt_of_not_le h7, fun _ => rfl⟩,
      by decide⟩

/-- The date-ordering penalty is at most 0.2. -/
lemma dateCheck_pen_le (doc : BaseDocument) :
    (dateCheck doc).penalty ≤ 1/5 := by
  cases hed : doc.expiry_date <;> cases hid : doc.issue_date <;>
    simp [dateCheck, hed, hid]
  split <;> norm_num

/-- The birth-sanity penalty is at most 0.2. -/
lemma birthCheck_pen_le (doc : BaseDocument) :
    (birthCheck doc).penalty ≤ 1/5 := by
  cases hbd : doc.birth_date <;> cases hed : doc.expiry_date <;>
    simp [birthCheck, hbd, hed]
  split <;> norm_num

/-- The document-number penalty is at most 0.2. -/
lemma docNumCheck_pen_le (dt : DocumentType) (doc : BaseDocument) :
    (docNumCheck dt doc).penalty ≤ 1/5 := by
  cases hn : doc.document_number <;> simp [docNumCheck, hn]
  split
  · norm_num
  · cases dt <;> simp <;> split <;> norm_num

/-- The MRZ penalty is at most 0.3. -/
lemma mrzCheck_pen_le (dt : DocumentType) (doc : BaseDocument) :
    (mrzCheck dt doc).penalty ≤ 3/10 := by
  unfold mrzCheck
  split
  · cases hm : doc.mrz_raw
    · norm_num
    · simp only
      split
      · norm_num
      · split <;> norm_num
  · norm_num

/-- With a selected document record the summed penalty is at most 0.9 and
the logic score is one minus that sum. -/
lemma logic_checks_some (e : ExtractionPayload) (doc : BaseDocument)
    (hsel : select_doc e = some doc) :
    rawPenalty e.document_type doc ≤ 9/10
    ∧ (logic_checks e).score = 1 - rawPenalty e.document_type doc := by
  have hb : rawPenalty e.document_type doc ≤ 9/10 := by
    have h1 := dateCheck_pen_le doc
    have h2 := birthCheck_pen_le doc
    have h3 := docNumCheck_pen_le e.document_type doc
    have h4 := mrzCheck_pen_le e.document_type doc
    unfold rawPenalty
    linarith
  have hmin : min (rawPenalty e.document_type doc) 1
      = rawPenalty e.document_type doc :=
    min_eq_left (le_trans hb (by norm_num))
  refine ⟨hb, ?_⟩
  unfold logic_checks
  rw [hsel]
  simp only [hmin]
  exact max_eq_right (by linarith)

/-! ## Claims -/

/-- Claim C3 (confirmed): `assess` computes
`ucs = 0.4 * clamp(ai_confidence, 0, 1) + 0.2 * clamp(image_quality / 100, 0, 1)
+ 0.4 * logic_score` and classifies exclusively: `ucs >= 0.9` gives
SUCCESS, `0.7 <= ucs < 0.9` gives MANUAL_REVIEW, `ucs < 0.7` gives
RETRY_UPLOAD; the aggregator never produces SYSTEM_ERROR. -/
theorem claim_C3 (e : ExtractionPayload) (q : ℚ) :
    (assess e q).ucs
      = (2/5) * clamp01 e.ai_confidence + (1/5) * clamp01 (q / 100)
        + (2/5) * (logic_checks e).score
    ∧ ((assess e q).status = "SUCCESS" ↔ 9/10 ≤ (assess e q).ucs)
    ∧ ((assess e q).status = "MANUAL_REVIEW" ↔
        7/10 ≤ (assess e q).ucs ∧ (assess e q).ucs < 9/10)
    ∧ ((assess e q).status = "RETRY_UPLOAD" ↔ (assess e q).ucs < 7/10)
    ∧ (assess e q).status ≠ "SYSTEM_ERROR" := by
  have hu : (assess e q).ucs
      = max 0 (min e.ai_confidence 1) * (2/5)
        + max 0 (min (q / 100) 1) * (1/5)
        + (logic_checks e).score * (2/5) := rfl
  have hs : (assess e q).status = status_from_score ((assess e q).ucs) := rfl
  obtain ⟨h1, h2, h3, h4⟩ := status_cases ((assess e q).ucs)
  refine ⟨?_, by rwa [hs], by rwa [hs], by rwa [hs], by rwa [hs]⟩
  rw [hu]
  unfold clamp01
  ring

/-- Claim C10 (confirmed): whenever a document sub-record is selected the
summed penalty is at most 0.9, so the 1.0 cap is never attained and
`logic_score >= 0.1`; `logic_score = 0` occurs only in the
missing-document-payload case. -/
theorem claim_C10 (e : ExtractionPayload) :
    (∀ doc, select_doc e = some doc →
      rawPenalty e.document_type doc ≤ 9/10
      ∧ min (rawPenalty e.document_type doc) 1
          = rawPenalty e.document_type doc
      ∧ (logic_checks e).score = 1 - rawPenalty e.document_type doc
      ∧ 1/10 ≤ (logic_checks e).score)
    ∧ ((logic_checks e).score = 0 → select_doc e = none) := by
  constructor
  · intro doc hsel
    obtain ⟨hb, hscore⟩ := logic_checks_some e doc hsel
    refine ⟨hb, min_eq_left (le_trans hb (by norm_num)), hscore, ?_⟩
    rw [hscore]
    linarith
  · intro h0
    cases hsel : select_doc e with
    | none => rfl
    | some doc =>
      obtain ⟨hb, hscore⟩ := logic_checks_some e doc hsel
      rw [hscore] at h0
      linarith

/-- Witness for claim C10 at a concrete payload with a selected record. -/
theorem claim_C10_witness :
    1/10 ≤ (logic_checks payloadGood).score :=
  ((claim_C10 payloadGood).1 docEmpty (by rfl)).2.2.2

/-- Natural division is below the exact quotient. -/
lemma natDiv_cast_le (a b : ℕ) : ((a / b : ℕ) : ℚ) ≤ (a : ℚ) / (b : ℚ) := by
  have h : (⌊(a : ℚ) / (b : ℚ)⌋₊ : ℚ) ≤ (a : ℚ) / (b : ℚ) :=
    Nat.floor_le (by positivity)
  rwa [Nat.floor_div_eq_div a b] at h

/-- The exact quotient is less than natural division plus one. -/
lemma lt_natDiv_cast_add_one (a b : ℕ) :
    (a : ℚ) / (b : ℚ) < ((a / b : ℕ) : ℚ) + 1 := by
  have h := Nat.lt_floor_add_one ((a : ℚ) / (b : ℚ))
  rwa [Nat.floor_div_eq_div a b] at h

/-- Claim C7 (confirmed, on the rational model of the float arithmetic):
an image whose longest side is at most the cap is returned byte-identical;
an image whose longest side exceeds the cap is re-encoded with longest
side exactly the cap, each side within 1px (truncation) of the exact
rescaled value, and neither side ever upscaled. -/
theorem claim_C7 (cap : Nat) (img : ImgDims) :
    (max img.width img.height ≤ cap →
      smart_resize cap img = ResizeOut.original)
    ∧ (∀ w h, cap < max img.width img.height →
        smart_resize cap img = ResizeOut.resized w h →
        max w h = cap
        ∧ w ≤ img.width ∧ h ≤ img.height
        ∧ (w : ℚ) ≤ (img.width : ℚ) * cap / (max img.width img.height : ℕ)
        ∧ ((img.width : ℚ) * cap / (max img.width img.height : ℕ) : ℚ)
            < w + 1
        ∧ (h : ℚ) ≤ (img.height : ℚ) * cap / (max img.width img.height : ℕ)
        ∧ ((img.height : ℚ) * cap / (max img.width img.height : ℕ) : ℚ)
            < h + 1) := by
  constructor
  · intro hle
    unfold smart_resize
    simp [hle]
  · intro w h hgt heq
    have hnle : ¬ max img.width img.height ≤ cap := not_le.mpr hgt
    unfold smart_resize at heq
    simp only [if_neg hnle, ResizeOut.resized.injEq] at heq
    obtain ⟨hw, hh⟩ := heq
    have hLpos : 0 < max img.width img.height :=
      lt_of_le_of_lt (Nat.zero_le cap) hgt
    have hcaple : cap ≤ max img.width img.height := le_of_lt hgt
    have hwle : w ≤ img.width := by
      rw [← hw]
      calc img.width * cap / max img.width img.height
          ≤ img.width * max img.width img.height / max img.width img.height
            := Nat.div_le_div_right (Nat.mul_le_mul_left _ hcaple)
        _ = img.width := Nat.mul_div_cancel _ hLpos
    have hhle : h ≤ img.height := by
      rw [← hh]
      calc img.height * cap / max img.width img.height
          ≤ img.height * max img.width img.height / max img.width img.height
            := Nat.div_le_div_right (Nat.mul_le_mul_left _ hcaple)
        _ = img.height := Nat.mul_div_cancel _ hLpos
    have hmax : max w h = cap := by
      rcases max_cases img.width img.height with ⟨hm, hwh⟩ | ⟨hm, hwh⟩
      · have hwcap : w = cap := by
          rw [← hw, hm, Nat.mul_div_cancel_left _ (hm ▸ hLpos)]
        have hhcap : h ≤ cap := by
          rw [← hh, hm]
          calc img.height * cap / img.width
              ≤ img.width * cap / img.width := Nat.div_le_div_right
                (Nat.mul_le_mul_right _ hwh)
            _ = cap := Nat.mul_div_cancel_left _ (hm ▸ hLpos)
        rw [hwcap]
        exact max_eq_left hhcap
      · have hhcap : h = cap := by
          rw [← hh, hm, Nat.mul_div_cancel_left _ (hm ▸ hLpos)]
        have hwcap : w ≤ cap := by
          rw [← hw, hm]
          calc img.width * cap / img.height
              ≤ img.height * cap / img.height := Nat.div_le_div_right
                (Nat.mul_le_mul_right _ (le_of_lt hwh))
            _ = cap := Nat.mul_div_cancel_left _ (hm ▸ hLpos)
        rw [hhcap]
        exact max_eq_right hwcap
    refine ⟨hmax, hwle, hhle, ?_, ?_, ?_, ?_⟩
    · rw [← hw]
      have := natDiv_cast_le (img.width * cap) (max img.width img.height)
      push_cast at this ⊢
      linarith
    · rw [← hw]
      have := lt_natDiv_cast_add_one (img.width * cap)
        (max img.width img.height)
      push_cast at this ⊢
      linarith
    · rw [← hh]
      have := natDiv_cast_le (img.height * cap) (max img.width img.height)
      push_cast at this ⊢
      linarith
    · rw [← hh]
      have := lt_natDiv_cast_add_one (img.height * cap)
        (max img.width img.height)
      push_cast at this ⊢
      linarith

/-- Witness for claim C7: a 2048 by 1000 image at cap 1024 resizes to
1024 by 500, whose longest side is the cap. -/
theorem claim_C7_witness :
    smart_resize 1024 ⟨2048, 1000⟩ = ResizeOut.resized 1024 500
    ∧ max 1024 500 = 1024 := by
  refine ⟨by decide, ?_⟩
  exact ((claim_C7 1024 ⟨2048, 1000⟩).2 1024 500 (by decide) (by decide)).1

/-- Exhausting the retry loop on retryable statuses from any start index:
the loop raises the exhaustion error after sleeping the exponential
backoff of every remaining attempt. -/
lemma post_exhaust (responses : Nat → HttpOutcome) (mr : Nat) (base : ℚ)
    (hall : ∀ i, i < mr → ∃ c, responses i = HttpOutcome.httpStatus c
      ∧ c ∈ retryableStatuses) :
    ∀ n attempt, mr - attempt = n →
      post_with_retry_from responses mr base attempt
        = (CallResult.modelCallError "Model call failed after retries.",
           (List.range n).map (fun i => base * 2 ^ (attempt + i))) := by
  intro n
  induction n with
  | zero =>
    intro attempt hn
    have hge : ¬ attempt < mr := by omega
    unfold post_with_retry_from
    simp [hge]
  | succ k ih =>
    intro attempt hn
    have hlt : attempt < mr := by omega
    obtain ⟨c, hc, hcr⟩ := hall attempt hlt
    have hrec := ih (attempt + 1) (by omega)
    unfold post_with_retry_from
    rw [dif_pos hlt, hc]
    simp only [hcr, if_pos, hrec]
    refine congrArg _ ?_
    rw [List.range_succ_eq_map, List.map_cons, List.map_map]
    refine congrArg₂ _ (by rw [Nat.add_zero]) ?_
    apply List.map_congr_left
    intro i _
    simp only [Function.comp_apply]
    have hexp : attempt + 1 + i = attempt + i.succ := by omega
    rw [hexp]

/-- Claim C6 (confirmed): inside one model attempt, an HTTP status in
{429, 500, 502, 503, 504} is retried with backoff delay
`base * 2 ^ attempt`, as is a network error except on the final attempt
where it raises; any other HTTP status raises immediately with no retry;
exhausting all attempts raises the service-call failure after backing off
on every attempt. -/
theorem claim_C6 (responses : Nat → HttpOutcome) (mr : Nat) (base : ℚ) :
    (∀ attempt c, attempt < mr →
      responses attempt = HttpOutcome.httpStatus c →
      c ∉ retryableStatuses →
      post_with_retry_from responses mr base attempt
        = (CallResult.modelCallError (httpStatusMsg c), []))
    ∧ (∀ attempt c, attempt < mr →
      responses attempt = HttpOutcome.httpStatus c →
      c ∈ retryableStatuses →
      post_with_retry_from responses mr base attempt
        = ((post_with_retry_from responses mr base (attempt + 1)).1,
           base * 2 ^ attempt ::
             (post_with_retry_from responses mr base (attempt + 1)).2))
    ∧ (∀ attempt m, attempt + 1 < mr →
      responses attempt = HttpOutcome.netError m →
      post_with_retry_from responses mr base attempt
        = ((post_with_retry_from responses mr base (attempt + 1)).1,
           base * 2 ^ attempt ::
             (post_with_retry_from responses mr base (attempt + 1)).2))
    ∧ (∀ attempt m, attempt + 1 = mr →
      responses attempt = HttpOutcome.netError m →
      post_with_retry_from responses mr base attempt
        = (CallResult.modelCallError m, []))
    ∧ ((∀ i, i < mr → ∃ c, responses i = HttpOutcome.httpStatus c
         ∧ c ∈ retryableStatuses) →
      post_with_retry responses mr base
        = (CallResult.modelCallError "Model call failed after retries.",
           (List.range mr).map (fun i => base * 2 ^ i))) := by
  refine ⟨?_, ?_, ?_, ?_, ?_⟩
  · intro attempt c hlt hc hcr
    conv_lhs => rw [post_with_retry_from]
    rw [dif_pos hlt, hc]
    simp [hcr]
  · intro attempt c hlt hc hcr
    conv_lhs => rw [post_with_retry_from]
    rw [dif_pos hlt, hc]
    simp [hcr]
  · intro attempt m hlt hm
    have hlt1 : attempt < mr := by omega
    have hne : attempt ≠ mr - 1 := by omega
    conv_lhs => rw [post_with_retry_from]
    rw [dif_pos hlt1, hm]
    simp [hne]
  · intro attempt m heq hm
    have hlt1 : attempt < mr := by omega
    have hlast : attempt = mr - 1 := by omega
    conv_lhs => rw [post_with_retry_from]
    rw [dif_pos hlt1, hm]
    simp [hlast]
  · intro hall
    have h := post_exhaust responses mr base hall mr 0 (by omega)
    unfold post_with_retry
    rw [h]
    refine congrArg _ ?_
    apply List.map_congr_left
    intro i _
    rw [Nat.zero_add]

/-- Witness for claim C6: three attempts all answering 503 exhaust the
retry budget with the three exponential-backoff delays. -/
theorem claim_C6_witness :
    post_with_retry (fun _ => HttpOutcome.httpStatus 503) 3 (4/5)
      = (CallResult.modelCallError "Model call failed after retries.",
         (List.range 3).map (fun i => (4/5 : ℚ) * 2 ^ i)) :=
  (claim_C6 (fun _ => HttpOutcome.httpStatus 503) 3 (4/5)).2.2.2.2
    (fun _ _ => ⟨503, rfl, by decide⟩)

/-- Claim C9 (confirmed): a schema failure on the first primary attempt
followed by a service-call failure on the same-model retry propagates the
service-call error without invoking the fallback model; the fallback is
invoked only after a call failure on the first attempt or parse failures
on both primary attempts. -/
theorem claim_C9 (env : ExtractEnv) :
    (∀ m1 m2, env.primary 0 = AttemptOutcome.schemaFail m1 →
      env.primary 1 = AttemptOutcome.callFail m2 →
      extract env = (Except.error (ExtractErr.modelCall m2), false))
    ∧ (∀ r, extract env = (r, true) →
      (∃ m, env.primary 0 = AttemptOutcome.callFail m)
      ∨ (∃ m1 m2, env.primary 0 = AttemptOutcome.schemaFail m1
          ∧ env.primary 1 = AttemptOutcome.schemaFail m2)) := by
  constructor
  · intro m1 m2 h0 h1
    unfold extract
    rw [h0, h1]
  · intro r h
    unfold extract at h
    cases h0 : env.primary 0 with
    | parsed p =>
      rw [h0] at h
      simp at h
    | schemaFail m1 =>
      rw [h0] at h
      cases h1 : env.primary 1 with
      | parsed p =>
        rw [h1] at h
        simp at h
      | schemaFail m2 =>
        exact Or.inr ⟨m1, m2, rfl, h1 ▸ rfl⟩
      | callFail m2 =>
        rw [h1] at h
        simp at h
    | callFail m =>
      exact Or.inl ⟨m, rfl⟩

/-- Witness for claim C9: with a parse failure then a call failure on the
retry, `extract` propagates the call failure and the fallback stays
uninvoked. -/
theorem claim_C9_witness :
    extract envC9
      = (Except.error (ExtractErr.modelCall "HTTP status error 400"),
         false) :=
  (claim_C9 envC9).1 "invalid json" "HTTP status error 400" rfl rfl

/-- Claim C4 (confirmed): in a single-document run a quality or dedup
`TechnicalRejectError` yields RETRY_UPLOAD with the failure message as
the sole issue, a `ModelCallError` or `SchemaValidationError` yields
SYSTEM_ERROR with a descriptive issue, a success passes through, and any
other exception propagates uncaught to the caller. -/
theorem claim_C4 (env : PipelineEnv) (b : Bytes) :
    (∀ m, (pipelineRun env b []).1
        = Except.error (PipelineExc.technicalReject m) →
      run_single_file env b
        = Except.ok ⟨"RETRY_UPLOAD", 0, 0, "", [m], [], none⟩)
    ∧ (∀ m, (pipelineRun env b []).1 = Except.error (PipelineExc.modelCall m) →
      run_single_file env b
        = Except.ok ⟨"SYSTEM_ERROR", 0, 0, "",
            ["API/parsing failure: " ++ m], [], none⟩)
    ∧ (∀ m, (pipelineRun env b []).1
        = Except.error (PipelineExc.schemaValidation m) →
      run_single_file env b
        = Except.ok ⟨"SYSTEM_ERROR", 0, 0, "",
            ["API/parsing failure: " ++ m], [], none⟩)
    ∧ (∀ m, (pipelineRun env b []).1 = Except.error (PipelineExc.other m) →
      run_single_file env b = Except.error m)
    ∧ (∀ r, (pipelineRun env b []).1 = Except.ok r →
      run_single_file env b = Except.ok r) := by
  refine ⟨?_, ?_, ?_, ?_, ?_⟩ <;> intro x h <;> unfold run_single_file <;>
    rw [h]

/-- Witness for claim C4: an environment whose quality gate cannot decode
the bytes maps to RETRY_UPLOAD with the reject message as sole issue. -/
theorem claim_C4_witness :
    run_single_file envReject bytesA
      = Except.ok ⟨"RETRY_UPLOAD", 0, 0, "", [invalidImageMsg], [], none⟩ :=
  (claim_C4 envReject bytesA).1 invalidImageMsg rfl

/-- When the fingerprint succeeds and is unseen, the pipeline instance's
set after the run contains the new fingerprint, whatever happens later. -/
lemma pipelineRun_state (env : PipelineEnv) (b : Bytes) (seen : List String)
    (ph : String) (hph : env.phashFn b = Except.ok ph) (hnot : ph ∉ seen) :
    (pipelineRun env b seen).2 = ph :: seen := by
  unfold pipelineRun
  rw [hph]
  simp only [if_neg hnot]
  cases hq : quality_check env b with
  | error e => rfl
  | ok q =>
    cases hx : env.extractFn (env.resize b) with
    | error e => cases e <;> rfl
    | ok p => rfl

/-- A run whose fingerprint is already in the set raises the duplicate
reject before any other processing. -/
lemma pipelineRun_dup (env : PipelineEnv) (b : Bytes) (seen : List String)
    (ph : String) (hph : env.phashFn b = Except.ok ph) (hmem : ph ∈ seen) :
    (pipelineRun env b seen).1
      = Except.error
          (PipelineExc.technicalReject "Duplicate upload detected.") := by
  unfold pipelineRun
  rw [hph]
  simp [hmem]

/-- A run result counts as a quality reject when it is the undecodable
reject or a blurry reject. -/
def isQualityReject (r : Except PipelineExc PipelineResult) : Prop :=
  r = Except.error (PipelineExc.technicalReject invalidImageMsg)
  ∨ ∃ v, r = Except.error (PipelineExc.technicalReject (blurryMsg v))

/-- Claim C8 (confirmed): the fingerprint is added to the seen set before
the quality gate runs, so an image rejected as undecodable or too blurry
still consumes its fingerprint, and re-submitting the identical bytes to
the same pipeline instance raises the duplicate-upload reject, never the
quality reject. -/
theorem claim_C8 (env : PipelineEnv) (b : Bytes) (seen : List String)
    (ph : String) (hph : env.phashFn b = Except.ok ph) (hnot : ph ∉ seen)
    (_hq : isQualityReject (pipelineRun env b seen).1) :
    ph ∈ (pipelineRun env b seen).2
    ∧ (pipelineRun env b (pipelineRun env b seen).2).1
        = Except.error
            (PipelineExc.technicalReject "Duplicate upload detected.")
    ∧ (pipelineRun env b (pipelineRun env b seen).2).1
        ≠ Except.error (PipelineExc.technicalReject invalidImageMsg)
    ∧ ∀ v, (pipelineRun env b (pipelineRun env b seen).2).1
        ≠ Except.error (PipelineExc.technicalReject (blurryMsg v)) := by
  have hstate := pipelineRun_state env b seen ph hph hnot
  rw [hstate]
  have hdup := pipelineRun_dup env b (ph :: seen) ph hph
    (List.mem_cons_self ph seen)
  refine ⟨List.mem_cons_self ph seen, hdup, ?_, ?_⟩
  · rw [hdup]
    simp only [ne_eq, Except.error.injEq, PipelineExc.technicalReject.injEq]
    decide
  · intro v
    rw [hdup]
    simp only [ne_eq, Except.error.injEq, PipelineExc.technicalReject.injEq]
    exact fun h => blurryMsg_ne_dup v h.symm

/-- Witness for claim C8: an image whose fingerprint succeeds but whose
quality gate cannot decode it consumes the fingerprint, and resubmission
to the same pipeline instance hits the duplicate reject. -/
theorem claim_C8_witness :
    "gif0" ∈ (pipelineRun envReject bytesA []).2
    ∧ (pipelineRun envReject bytesA (pipelineRun envReject bytesA []).2).1
        = Except.error
            (PipelineExc.technicalReject "Duplicate upload detected.") := by
  have h := claim_C8 envReject bytesA [] "gif0" rfl (by simp)
    (Or.inl rfl)
  exact ⟨h.1, h.2.1⟩

/-- Claim C1 (code bug): `run_single_file` constructs a fresh
`KYCPipeline` with an empty fingerprint set on every call, so submitting
identical image bytes twice through the single-document entry point
processes the second submission exactly like the first instead of raising
the duplicate-upload TechnicalReject that the spec promises; the
duplicate reject fires only when the same `KYCPipeline` instance runs the
bytes twice. -/
theorem claim_C1 :
    (run_single_file_twice envGood bytesA).2
      = Except.ok ⟨"SUCCESS", 1, 1, "abc123", [], [], some payloadGood⟩
    ∧ (run_single_file_twice envGood bytesA).2
        = (run_single_file_twice envGood bytesA).1
    ∧ (pipelineRun envGood bytesA (pipelineRun envGood bytesA []).2).1
        = Except.error
            (PipelineExc.technicalReject "Duplicate upload detected.") := by
  have hlc : logic_checks payloadGood = ⟨1, [], []⟩ := by
    have hsel : select_doc payloadGood = some docEmpty := rfl
    unfold logic_checks
    rw [hsel]
    norm_num [rawPenalty, dateCheck, birthCheck, docNumCheck, mrzCheck,
      docEmpty, payloadGood]
  have ha : assess payloadGood 100 = ⟨"SUCCESS", 1, 1, [], []⟩ := by
    unfold assess
    rw [hlc]
    norm_num [payloadGood, status_from_score]
  have hrun1 : pipelineRun envGood bytesA []
      = (Except.ok ⟨"SUCCESS", 1, 1, "abc123", [], [], some payloadGood⟩,
         ["abc123"]) := by
    norm_num [pipelineRun, quality_check, envGood, quality_threshold, ha]
  have hsingle : run_single_file envGood bytesA
      = Except.ok ⟨"SUCCESS", 1, 1, "abc123", [], [], some payloadGood⟩ := by
    unfold run_single_file
    rw [show (pipelineRun envGood bytesA []).1
      = Except.ok ⟨"SUCCESS", 1, 1, "abc123", [], [], some payloadGood⟩ from
      by rw [hrun1]]
  refine ⟨hsingle, rfl, ?_⟩
  rw [show (pipelineRun envGood bytesA []).2 = ["abc123"] from by rw [hrun1]]
  exact pipelineRun_dup envGood bytesA ["abc123"] "abc123" rfl
    (List.mem_cons_self _ _)

/-- Counterexample to claim C2 as stated: a passport payload whose MRZ
has two lines but a second line of only five characters (fewer than 44)
receives no "MRZ incomplete" issue, no flag, and no penalty at all — the
incomplete message is reported only when there are fewer than two
lines. -/
theorem claim_C2_counterexample :
    eC2.document_type = DocumentType.passport
    ∧ docC2.mrz_raw = some "LINE1\nSHORT"
    ∧ (mrzLine2 "LINE1\nSHORT").length < 44
    ∧ validate_mrz_cross_check "LINE1\nSHORT" docC2 = []
    ∧ logic_checks eC2 = ⟨1, [], []⟩ := by
  refine ⟨rfl, rfl, by decide, by decide, ?_⟩
  have h1 : dateCheck docC2 = ⟨[], [], 0⟩ := by decide
  have h2 : birthCheck docC2 = ⟨[], [], 0⟩ := by decide
  have h3 : docNumCheck eC2.document_type docC2 = ⟨[], [], 0⟩ := by decide
  have h4 : mrzCheck eC2.document_type docC2 = ⟨[], [], 0⟩ := by decide
  have hsel : select_doc eC2 = some docC2 := rfl
  unfold logic_checks rawPenalty
  rw [hsel]
  norm_num [h1, h2, h3, h4]

/-- Claim C2 (corrected): the validator reports "MRZ incomplete" — and
with it the single 0.3 penalty flagging `mrz_raw` — only when `mrz_raw`
splits into fewer than two lines; when a second line exists but is
shorter than 44 characters after space removal, the cross-check is
skipped silently: no issue, no flag, no penalty. -/
theorem claim_C2 (doc : BaseDocument) (m : String) (e : ExtractionPayload)
    (hdt : e.document_type = DocumentType.passport)
    (hsel : select_doc e = some doc)
    (hmrz : doc.mrz_raw = some m) (hm : m.data.isEmpty = false) :
    ((pySplitNl (pyStrip m)).length < 2 →
      validate_mrz_cross_check m doc = [mrzIncompleteMsg]
      ∧ mrzCheck e.document_type doc
          = ⟨[mrzIncompleteMsg], ["mrz_raw"], 3/10⟩
      ∧ mrzIncompleteMsg ∈ (logic_checks e).issues
      ∧ "mrz_raw" ∈ (logic_checks e).flagged)
    ∧ (2 ≤ (pySplitNl (pyStrip m)).length → (mrzLine2 m).length < 44 →
      validate_mrz_cross_check m doc = []
      ∧ mrzCheck e.document_type doc = ⟨[], [], 0⟩
      ∧ rawPenalty e.document_type doc
          = (dateCheck doc).penalty + (birthCheck doc).penalty
            + (docNumCheck e.document_type doc).penalty) := by
  constructor
  · intro hlt
    have hval : validate_mrz_cross_check m doc = [mrzIncompleteMsg] := by
      unfold validate_mrz_cross_check
      simp [hlt]
    have hmc : mrzCheck e.document_type doc
        = ⟨[mrzIncompleteMsg], ["mrz_raw"], 3/10⟩ := by
      rw [hdt]
      unfold mrzCheck
      rw [if_pos rfl, hmrz]
      simp [hm, hval]
    refine ⟨hval, hmc, ?_, ?_⟩
    · unfold logic_checks
      rw [hsel]
      simp [hmc]
    · unfold logic_checks
      rw [hsel]
      simp [hmc]
  · intro h2 h44
    have hnlt : ¬ (pySplitNl (pyStrip m)).length < 2 := by omega
    have hn44 : ¬ 44 ≤ (mrzLine2 m).length := by omega
    have hval : validate_mrz_cross_check m doc = [] := by
      unfold validate_mrz_cross_check
      simp [hnlt, hn44]
    have hmc : mrzCheck e.document_type doc = ⟨[], [], 0⟩ := by
      rw [hdt]
      unfold mrzCheck
      rw [if_pos rfl, hmrz]
      simp [hm, hval]
    refine ⟨hval, hmc, ?_⟩
    unfold rawPenalty
    rw [hmc]
    norm_num

/-- Witness for claim C2: a one-line MRZ gets the incomplete issue and
the flag through `_logic_checks`. -/
theorem claim_C2_witness :
    validate_mrz_cross_check "ONLYONELINE" docC2w = [mrzIncompleteMsg]
    ∧ mrzIncompleteMsg ∈ (logic_checks eC2w).issues
    ∧ "mrz_raw" ∈ (logic_checks eC2w).flagged := by
  have h := (claim_C2 docC2w "ONLYONELINE" eC2w rfl rfl rfl
    (by decide)).1 (by decide)
  exact ⟨h.1, h.2.2.1, h.2.2.2⟩

/-- Counterexample to claim C5 as stated: the code removes EVERY filler
character from the MRZ document-number field, not only trailing ones.
With second line starting `A<1234567` and visual number `A12345`, the
claim's trailing-stripped reading gives first-six `A<1234`, which the
visual number does not start with, so the claim demands a mismatch issue
and the 0.3 penalty; the code's all-filler removal gives `A12345`,
reports no issue and applies no penalty. -/
theorem claim_C5_counterexample :
    mrzLine2 mrzC5 = line2C5
    ∧ line2C5.length = 44
    ∧ docC5.document_number = some "A12345"
    ∧ mrzDocNumClaim line2C5 = "A<1234567"
    ∧ pyStartsWith "A12345" (pySlice (mrzDocNumClaim line2C5) 0 6) = false
    ∧ validate_mrz_cross_check mrzC5 docC5 = []
    ∧ logic_checks eC5 = ⟨1, [], []⟩ := by
  refine ⟨by decide, by decide, rfl, by decide, by decide, by decide, ?_⟩
  have h1 : dateCheck docC5 = ⟨[], [], 0⟩ := by decide
  have h2 : birthCheck docC5 = ⟨[], [], 0⟩ := by decide
  have h3 : docNumCheck eC5.document_type docC5 = ⟨[], [], 0⟩ := by decide
  have h4 : mrzCheck eC5.document_type docC5 = ⟨[], [], 0⟩ := by decide
  have hsel : select_doc eC5 = some docC5 := rfl
  unfold logic_checks rawPenalty
  rw [hsel]
  norm_num [h1, h2, h3, h4]

/-- Claim C5 (corrected): on a second MRZ line of at least 44 characters
the document number is characters 0-8 with EVERY filler character
removed (then whitespace-stripped), and the visual number must start
with its first six characters; visual birth and expiry dates rendered
`%y%m%d` must equal characters 13-18 and 21-26 exactly; each mismatching
sub-check appends a distinct issue string; and the 0.3 penalty is
applied exactly once, flagging `mrz_raw`, regardless of how many
sub-checks mismatch. -/
theorem claim_C5 (doc : BaseDocument) (m : String) (e : ExtractionPayload)
    (hdt : e.document_type = DocumentType.passport)
    (hsel : select_doc e = some doc)
    (hmrz : doc.mrz_raw = some m) (hm : m.data.isEmpty = false)
    (hlines : ¬ (pySplitNl (pyStrip m)).length < 2)
    (hlen : 44 ≤ (mrzLine2 m).length) :
    (∀ dn, doc.document_number = some dn → dn.data.isEmpty = false →
      (mrzDocNum (mrzLine2 m)).data.isEmpty = false →
      (docNumMismatchMsg dn (mrzDocNum (mrzLine2 m))
          ∈ validate_mrz_cross_check m doc
        ↔ pyStartsWith dn (pySlice (mrzDocNum (mrzLine2 m)) 0 6) = false))
    ∧ (∀ b, doc.birth_date = some b →
      (birthMismatchMsg (strftime_yymmdd b) (mrzBirth (mrzLine2 m))
          ∈ validate_mrz_cross_check m doc
        ↔ mrzBirth (mrzLine2 m) ≠ strftime_yymmdd b))
    ∧ (∀ ex, doc.expiry_date = some ex →
      (expiryMismatchMsg (strftime_yymmdd ex) (mrzExpiry (mrzLine2 m))
          ∈ validate_mrz_cross_check m doc
        ↔ mrzExpiry (mrzLine2 m) ≠ strftime_yymmdd ex))
    ∧ (∀ a1 a2 b1 b2 : String,
      docNumMismatchMsg a1 a2 ≠ birthMismatchMsg b1 b2
      ∧ docNumMismatchMsg a1 a2 ≠ expiryMismatchMsg b1 b2
      ∧ birthMismatchMsg a1 a2 ≠ expiryMismatchMsg b1 b2)
    ∧ (validate_mrz_cross_check m doc ≠ [] →
      mrzCheck e.document_type doc
        = ⟨validate_mrz_cross_check m doc, ["mrz_raw"], 3/10⟩
      ∧ (mrzCheck e.document_type doc).penalty = 3/10
      ∧ "mrz_raw" ∈ (logic_checks e).flagged) := by
  have hshape : validate_mrz_cross_check m doc
      = docNumIssue doc (mrzLine2 m) ++ birthIssue doc (mrzLine2 m)
        ++ expiryIssue doc (mrzLine2 m) := by
    unfold validate_mrz_cross_check
    simp [hlines, hlen]
  have hne_db : ∀ a1 a2 b1 b2 : String,
      docNumMismatchMsg a1 a2 ≠ birthMismatchMsg b1 b2 := fun a1 a2 b1 b2 =>
    mismatch_msg_ne "MRZ doc# mismatch: visual=" "MRZ birth mismatch: visual="
      (by decide) (by decide) (by decide) a1 a2 b1 b2
  have hne_de : ∀ a1 a2 b1 b2 : String,
      docNumMismatchMsg a1 a2 ≠ expiryMismatchMsg b1 b2 := fun a1 a2 b1 b2 =>
    mismatch_msg_ne "MRZ doc# mismatch: visual="
      "MRZ expiry mismatch: visual="
      (by decide) (by decide) (by decide) a1 a2 b1 b2
  have hne_be : ∀ a1 a2 b1 b2 : String,
      birthMismatchMsg a1 a2 ≠ expiryMismatchMsg b1 b2 := fun a1 a2 b1 b2 =>
    mismatch_msg_ne "MRZ birth mismatch: visual="
      "MRZ expiry mismatch: visual="
      (by decide) (by decide) (by decide) a1 a2 b1 b2
  have hnotin_birth : ∀ msg, (∀ b1 b2 : String, msg ≠ birthMismatchMsg b1 b2)
      → msg ∉ birthIssue doc (mrzLine2 m) := by
    intro msg hne hmem
    unfold birthIssue at hmem
    cases hbd : doc.birth_date with
    | none => rw [hbd] at hmem; simp at hmem
    | some b =>
      rw [hbd] at hmem
      simp at hmem
      exact hne _ _ hmem.2
  have hnotin_expiry : ∀ msg,
      (∀ b1 b2 : String, msg ≠ expiryMismatchMsg b1 b2)
      → msg ∉ expiryIssue doc (mrzLine2 m) := by
    intro msg hne hmem
    unfold expiryIssue at hmem
    cases hed : doc.expiry_date with
    | none => rw [hed] at hmem; simp at hmem
    | some ex =>
      rw [hed] at hmem
      simp at hmem
      exact hne _ _ hmem.2
  have hnotin_docnum : ∀ msg,
      (∀ b1 b2 : String, msg ≠ docNumMismatchMsg b1 b2)
      → msg ∉ docNumIssue doc (mrzLine2 m) := by
    intro msg hne hmem
    unfold docNumIssue at hmem
    cases hdn : doc.document_number with
    | none => rw [hdn] at hmem; simp at hmem
    | some dn =>
      rw [hdn] at hmem
      simp at hmem
      exact hne _ _ hmem.2
  refine ⟨?_, ?_, ?_, fun a1 a2 b1 b2 =>
    ⟨hne_db a1 a2 b1 b2, hne_de a1 a2 b1 b2, hne_be a1 a2 b1 b2⟩, ?_⟩
  · intro dn hdn h1 h2
    rw [hshape]
    constructor
    · intro hmem
      cases hps : pyStartsWith dn (pySlice (mrzDocNum (mrzLine2 m)) 0 6) with
      | false => rfl
      | true =>
        exfalso
        have hd : docNumIssue doc (mrzLine2 m) = [] := by
          unfold docNumIssue
          rw [hdn]
          simp [hps]
        rw [hd] at hmem
        simp only [List.nil_append, List.mem_append] at hmem
        rcases hmem with hmem | hmem
        · exact hnotin_birth _ (fun b1 b2 => hne_db _ _ b1 b2) hmem
        · exact hnotin_expiry _ (fun b1 b2 => hne_de _ _ b1 b2) hmem
    · intro hps
      have hd : docNumIssue doc (mrzLine2 m)
          = [docNumMismatchMsg dn (mrzDocNum (mrzLine2 m))] := by
        unfold docNumIssue
        rw [hdn]
        simp [h1, h2, hps]
      rw [hd]
      simp
  · intro b hbd
    rw [hshape]
    constructor
    · intro hmem
      by_cases hb : mrzBirth (mrzLine2 m) = strftime_yymmdd b
      · exfalso
        have hd : birthIssue doc (mrzLine2 m) = [] := by
          unfold birthIssue
          rw [hbd]
          simp [hb]
        rw [hd] at hmem
        simp only [List.append_nil, List.mem_append] at hmem
        rcases hmem with hmem | hmem
        · exact hnotin_docnum _
            (fun b1 b2 => fun h => hne_db b1 b2 _ _ h.symm) hmem
        · exact hnotin_expiry _ (fun b1 b2 => hne_be _ _ b1 b2) hmem
      · exact hb
    · intro hb
      have hd : birthIssue doc (mrzLine2 m)
          = [birthMismatchMsg (strftime_yymmdd b) (mrzBirth (mrzLine2 m))]
          := by
        unfold birthIssue
        rw [hbd]
        simp [hb]
      rw [hd]
      simp
  · intro ex hed
    rw [hshape]
    constructor
    · intro hmem
      by_cases hb : mrzExpiry (mrzLine2 m) = strftime_yymmdd ex
      · exfalso
        have hd : expiryIssue doc (mrzLine2 m) = [] := by
          unfold expiryIssue
          rw [hed]
          simp [hb]
        rw [hd] at hmem
        simp only [List.append_nil, List.mem_append] at hmem
        rcases hmem with hmem | hmem
        · exact hnotin_docnum _
            (fun b1 b2 => fun h => hne_de b1 b2 _ _ h.symm) hmem
        · exact hnotin_birth _
            (fun b1 b2 => fun h => hne_be b1 b2 _ _ h.symm) hmem
      · exact hb
    · intro hb
      have hd : expiryIssue doc (mrzLine2 m)
          = [expiryMismatchMsg (strftime_yymmdd ex) (mrzExpiry (mrzLine2 m))]
          := by
        unfold expiryIssue
        rw [hed]
        simp [hb]
      rw [hd]
      simp
  · intro hne
    have hf : (validate_mrz_cross_check m doc).isEmpty = false := by
      cases hv : validate_mrz_cross_check m doc with
      | nil => exact absurd hv hne
      | cons a t => rfl
    have hmc : mrzCheck e.document_type doc
        = ⟨validate_mrz_cross_check m doc, ["mrz_raw"], 3/10⟩ := by
      rw [hdt]
      unfold mrzCheck
      rw [if_pos rfl, hmrz]
      simp [hm, hf]
    refine ⟨hmc, by rw [hmc], ?_⟩
    unfold logic_checks
    rw [hsel]
    simp [hmc]

/-- Witness for claim C5: a visual birth date of 1990-05-17 against an
MRZ birth field `900101` yields the birth-mismatch issue, and the single
0.3 penalty applies. -/
theorem claim_C5_witness :
    birthMismatchMsg (strftime_yymmdd ⟨1990, 5, 17⟩)
        (mrzBirth (mrzLine2 mrzC5w))
      ∈ validate_mrz_cross_check mrzC5w docC5w
    ∧ (mrzCheck eC5w.document_type docC5w).penalty = 3/10 := by
  have h := claim_C5 docC5w mrzC5w eC5w rfl rfl rfl (by decide) (by decide)
    (by decide)
  exact ⟨(h.2.1 ⟨1990, 5, 17⟩ rfl).mpr (by decide),
    (h.2.2.2.2 (by decide)).2.1⟩

end PoVKYC
